import Mathlib

/-!
Shallow embedding of the `senza.templates` module (files
`senza/templates/postgresapp.py` and `senza/templates/webappmultiregion.py`)
and proofs about its variable defaulting, template rendering, artifact tag
selection, password generation, interactive gathering and emitted files.

Python values stored in the variable mapping are modelled by `PyVal`; the
mapping itself (a Python `dict` used as an insertion-ordered association of
string keys to values) is modelled by `VarMap`.  External collaborators
(`click` prompts/confirms, AWS lookups, the artifact registry, the filesystem)
are modelled as data supplied by an environment record, so every function of
the module becomes a pure, executable Lean function.
-/

namespace Senza



/-- A Python scalar value as stored in the template variable mapping:
`None`, a string, an integer, or a boolean. -/
inductive PyVal where
  | none : PyVal
  | str : String → PyVal
  | int : Int → PyVal
  | bool : Bool → PyVal
deriving DecidableEq, Repr

/-- Python truthiness of a `PyVal` (`None`, `""`, `0` and `False` are falsy). -/
def PyVal.truthy : PyVal → Bool
  | .none => false
  | .str s => !s.isEmpty
  | .int n => n != 0
  | .bool b => b

/-- Rendering a `PyVal` to text for template interpolation (`None` renders
as the empty string, the treatment the spec gives to disabled features). -/
def PyVal.render : PyVal → String
  | .none => ""
  | .str s => s
  | .int n => toString n
  | .bool b => if b then "True" else "False"

/-- The variable mapping: an insertion-ordered association of string keys to
`PyVal`s, modelling the Python `dict` named `variables`. -/
abbrev VarMap := List (String × PyVal)

/-- Lookup of a key (`variables[k]` / `variables.get(k)`). -/
def lookupVar : VarMap → String → Option PyVal
  | [], _ => Option.none
  | (k', v') :: rest, k => if k' = k then some v' else lookupVar rest k

/-- `k in variables`. -/
def containsVar (m : VarMap) (k : String) : Bool :=
  (lookupVar m k).isSome

/-- Python dict assignment `variables[k] = v`: replaces the value in place
if the key exists, otherwise appends the new binding at the end. -/
def setVar : VarMap → String → PyVal → VarMap
  | [], k, v => [(k, v)]
  | (k', v') :: rest, k, v =>
    if k' = k then (k, v) :: rest else (k', v') :: setVar rest k v

/-- Python `dict.setdefault(k, v)`: inserts `v` at the end only when `k` is
absent; an existing binding is left untouched. -/
def setDefaultVar : VarMap → String → PyVal → VarMap
  | [], k, v => [(k, v)]
  | (k', v') :: rest, k, v =>
    if k' = k then (k', v') :: rest else (k', v') :: setDefaultVar rest k v

/-- Read a key expected to hold a string (dynamically typed Python access,
with `""` for the value of a different shape). -/
def getStr (m : VarMap) (k : String) : String :=
  match lookupVar m k with
  | some (.str s) => s
  | _ => ""

/-- Read a key expected to hold an integer. -/
def getInt (m : VarMap) (k : String) : Int :=
  match lookupVar m k with
  | some (.int n) => n
  | _ => 0

/-! ### Python string primitives used by the module -/

/-- `needle.isPrefixOf hay`-based substring test, modelling Python's
`needle in hay` on strings: does `needle` occur at some offset of the text?
Eight offsets are checked per recursion step so that evaluating the test
stays shallow even on long rendered texts. -/
def strContainsChars : List Char → List Char → Bool
  | c1 :: c2 :: c3 :: c4 :: c5 :: c6 :: c7 :: c8 :: t, needle =>
    needle.isPrefixOf (c1 :: c2 :: c3 :: c4 :: c5 :: c6 :: c7 :: c8 :: t) ||
    needle.isPrefixOf (c2 :: c3 :: c4 :: c5 :: c6 :: c7 :: c8 :: t) ||
    needle.isPrefixOf (c3 :: c4 :: c5 :: c6 :: c7 :: c8 :: t) ||
    needle.isPrefixOf (c4 :: c5 :: c6 :: c7 :: c8 :: t) ||
    needle.isPrefixOf (c5 :: c6 :: c7 :: c8 :: t) ||
    needle.isPrefixOf (c6 :: c7 :: c8 :: t) ||
    needle.isPrefixOf (c7 :: c8 :: t) ||
    needle.isPrefixOf (c8 :: t) ||
    strContainsChars t needle
  | c :: t, needle => needle.isPrefixOf (c :: t) || strContainsChars t needle
  | [], needle => needle.isEmpty

/-- Python `needle in hay` for strings. -/
def pyInStr (needle hay : String) : Bool :=
  strContainsChars hay.data needle.data

/-- Python `s.startswith(prefix)`. -/
def pyStartsWith (needle s : String) : Bool :=
  needle.data.isPrefixOf s.data

/-- Python `s or t` on an optional string (`None` and `""` are falsy). -/
def pyOrStr (a : Option String) (b : String) : String :=
  match a with
  | Option.none => b
  | some s => if s.isEmpty then b else s

/-- Python `s[-1:]`: the last character as a one-character string, or `""`. -/
def pyLastSlice (s : String) : String :=
  match s.data.getLast? with
  | Option.none => ""
  | some c => String.mk [c]

/-- Python `s[:-1]`: the string without its last character. -/
def pyDropLast (s : String) : String :=
  String.mk s.data.dropLast

/-- Python `s.lower()` (ASCII). -/
def pyLower (s : String) : String :=
  String.mk (s.data.map Char.toLower)

/-- Python `s.split(c)[0]`: the longest prefix not containing `c`. -/
def pySplitHead (c : Char) (s : String) : String :=
  String.mk (s.data.takeWhile (· ≠ c))

/-- Python `s.split(c)`. -/
def pySplitChar (c : Char) : List Char → List (List Char)
  | [] => [[]]
  | x :: rest =>
    let r := pySplitChar c rest
    if x = c then [] :: r
    else
      match r with
      | [] => [[x]]
      | p :: ps => (x :: p) :: ps

/-- The index of the last occurrence of `c`, if any (`s.rfind(c)` without
the `-1` encoding). -/
def lastIndexOf (c : Char) : List Char → Option Nat
  | [] => Option.none
  | x :: xs =>
    match lastIndexOf c xs with
    | some i => some (i + 1)
    | Option.none => if x = c then some 0 else Option.none

/-- Python `s.rfind(c)`: last index of `c`, or `-1`. -/
def pyRfind (c : Char) (s : String) : Int :=
  match lastIndexOf c s.data with
  | some i => (i : Int)
  | Option.none => -1

/-- Python `s.title()`: a character is upper-cased after a non-letter and
lower-cased after a letter. -/
def pyTitleChars : Bool → List Char → List Char
  | _, [] => []
  | prevAlpha, c :: rest =>
    (if prevAlpha then c.toLower else c.toUpper) :: pyTitleChars c.isAlpha rest

/-- Python `s.title()`. -/
def pyTitle (s : String) : String :=
  String.mk (pyTitleChars false s.data)

/-! ### Template renderer

Modelled from the spec: `senza.utils.pystache_render` and the pystache engine
are not under `src/`; §4.4 of the spec fixes their contract — scalar
interpolation (missing key ⇒ empty string), boolean sections gated on
truthiness of the mapping entry, inverted sections gated on falsiness or
absence.  The delimiter-change escape used by the multi-region templates is
not modelled, as no claim inspects text rendered from those templates. -/

/-- A parsed template node: a literal text run, an interpolation tag, or a
(possibly inverted) conditional block with a body. -/
inductive MNode where
  | text : List Char → MNode
  | var : String → MNode
  | sect : Bool → String → List MNode → MNode
deriving Repr

/-- Read a tag's content up to the closing `}}`. -/
def readTag : List Char → List Char × List Char
  | [] => ([], [])
  | '}' :: '}' :: rest => ([], rest)
  | c :: rest =>
    let (n, r) := readTag rest
    (c :: n, r)

/-- Strip surrounding spaces of a tag name. -/
def trimChars (l : List Char) : List Char :=
  ((l.dropWhile (· = ' ')).reverse.dropWhile (· = ' ')).reverse

/-- An open-section frame of the parser: inverted flag, section name, and the
(reversed) nodes accumulated before the section opened. -/
abbrev ParseFrame := Bool × String × List MNode

/-- Close every frame still open (well-formed templates close them all). -/
def closeFrames : List ParseFrame → List MNode → List MNode
  | [], acc => acc.reverse
  | (inv, name, outer) :: stk, acc =>
    closeFrames stk (.sect inv name acc.reverse :: outer)

/-- Parse template text into nodes, keeping a stack of open sections.  The
fuel argument only serves structural recursion; callers pass more fuel than
the input length. -/
def parseGo : Nat → List Char → List ParseFrame → List MNode → List MNode
  | 0, _, stk, acc => closeFrames stk acc
  | _ + 1, [], stk, acc => closeFrames stk acc
  | fuel + 1, '{' :: '{' :: cs, stk, acc =>
    match cs with
    | '/' :: cs' =>
      let (_, rest) := readTag cs'
      match stk with
      | [] => parseGo fuel rest [] acc
      | (inv, name, outer) :: stk' =>
        parseGo fuel rest stk' (.sect inv name acc.reverse :: outer)
    | '#' :: cs' =>
      let (name, rest) := readTag cs'
      parseGo fuel rest ((false, String.mk (trimChars name), acc) :: stk) []
    | '^' :: cs' =>
      let (name, rest) := readTag cs'
      parseGo fuel rest ((true, String.mk (trimChars name), acc) :: stk) []
    | _ =>
      let (name, rest) := readTag cs
      parseGo fuel rest stk (.var (String.mk (trimChars name)) :: acc)
  | fuel + 1, c :: cs, stk, acc =>
    let run := cs.takeWhile (· ≠ '{')
    parseGo fuel (cs.drop run.length) stk (.text (c :: run) :: acc)

/-- Join template lines with newlines, right-nested so that walking the
resulting text forces only a constant amount of structure per character. -/
def joinLines : List String → String
  | [] => ""
  | [l] => l
  | l :: ls => l ++ "\n" ++ joinLines ls

/-- A length function counting eight characters per recursion step, so that
evaluating it stays shallow even on long template texts. -/
def len8 : List Char → Nat → Nat
  | _ :: _ :: _ :: _ :: _ :: _ :: _ :: _ :: t, n => len8 t (n + 8)
  | _ :: t, n => len8 t (n + 1)
  | [], n => n

/-- Parse a whole template. -/
def parseTemplate (template : String) : List MNode :=
  parseGo (len8 template.data 0 + 1) template.data [] []

/-- Render parsed nodes against a variable mapping, working through a stack
of pending node lists with an accumulator of output characters in reverse.
The fuel argument only serves structural recursion; callers pass more fuel
than the total node count. -/
def renderGo : Nat → VarMap → List (List MNode) → List Char → List Char
  | 0, _, _, acc => acc.reverse
  | _ + 1, _, [], acc => acc.reverse
  | fuel + 1, ctx, [] :: stk, acc => renderGo fuel ctx stk acc
  | fuel + 1, ctx, (.text run :: rest) :: stk, acc =>
    renderGo fuel ctx (rest :: stk) (run.reverse ++ acc)
  | fuel + 1, ctx, (.var n :: rest) :: stk, acc =>
    renderGo fuel ctx (rest :: stk)
      (((lookupVar ctx n).getD .none).render.data.reverse ++ acc)
  | fuel + 1, ctx, (.sect inv n body :: rest) :: stk, acc =>
    if ((lookupVar ctx n).getD .none).truthy ≠ inv then
      renderGo fuel ctx (body :: rest :: stk) acc
    else
      renderGo fuel ctx (rest :: stk) acc

/-- `pystache_render(template, variables)`. -/
def pystache_render (template : String) (ctx : VarMap) : String :=
  let fuel := (len8 template.data 0 + 1) * 2
  String.mk (renderGo fuel ctx [parseTemplate template] [])

namespace PostgresApp

def POSTGRES_PORT : Int := 5432

def HEALTHCHECK_PORT : Int := 8008

def SPILO_IMAGE_ADDRESS : String := "registry.opensource.zalan.do/acid/spilo-9.4"

end PostgresApp

/-- The database-pattern template string of `postgresapp.py`, line by line. -/
def PostgresApp.TEMPLATE : String := joinLines [
  "",
  "# basic information for generating and executing this definition",
  "SenzaInfo:",
  "  StackName: spilo",
  "  {{^docker_image}}",
  "  Parameters:",
  "    - ImageVersion:",
  "        Description: \"Docker image version of spilo.\"",
  "  {{/docker_image}}",
  "  Tags:",
  "    - SpiloCluster: \"{{version}}\"",
  "",
  "# a list of senza components to apply to the definition",
  "SenzaComponents:",
  "",
  "  # this basic configuration is required for the other components",
  "  - Configuration:",
  "      Type: Senza::StupsAutoConfiguration # auto-detect network setup",
  "",
  "  # will create a launch configuration and auto scaling group with scaling triggers",
  "  - AppServer:",
  "      Type: Senza::TaupageAutoScalingGroup",
  "      AutoScaling:",
  "        Minimum: 3",
  "        Maximum: 3",
  "        MetricType: CPU",
  "      InstanceType: {{instance_type}}",
  "      \x7b\x7b\x23ebs_optimized\x7d\x7d",
  "      EbsOptimized: True",
  "      {{/ebs_optimized}}",
  "      BlockDeviceMappings:",
  "        - DeviceName: /dev/xvdk",
  "          \x7b\x7b\x23use_ebs\x7d\x7d",
  "          Ebs:",
  "            VolumeSize: {{volume_size}}",
  "            VolumeType: {{volume_type}}",
  "            \x7b\x7b\x23snapshot_id\x7d\x7d",
  "            SnapshotId: {{snapshot_id}}",
  "            {{/snapshot_id}}",
  "            \x7b\x7b\x23volume_iops\x7d\x7d",
  "            Iops: {{volume_iops}}",
  "            {{/volume_iops}}",
  "          {{/use_ebs}}",
  "          {{^use_ebs}}",
  "          VirtualName: ephemeral0",
  "          {{/use_ebs}}",
  "      ElasticLoadBalancer:",
  "        - PostgresLoadBalancer",
  "        \x7b\x7b\x23add_replica_loadbalancer\x7d\x7d",
  "        - PostgresReplicaLoadBalancer",
  "        {{/add_replica_loadbalancer}}",
  "      HealthCheckType: EC2",
  "      SecurityGroups:",
  "        - Fn::GetAtt:",
  "          - SpiloMemberSG",
  "          - GroupId",
  "      IamRoles:",
  "        - Ref: PostgresAccessRole",
  "      AssociatePublicIpAddress: false # change for standalone deployment in default VPC",
  "      TaupageConfig:",
  "        runtime: Docker",
  "        \x7b\x7b\x23docker_image\x7d\x7d",
  "        source: {{docker_image}}",
  "        {{/docker_image}}",
  "        {{^docker_image}}",
  "        source: \"{{ImageVersion}}\"",
  "        {{/docker_image}}",
  "        ports:",
  "          {{postgres_port}}: {{postgres_port}}",
  "          {{healthcheck_port}}: {{healthcheck_port}}",
  "        etcd_discovery_domain: \"{{discovery_domain}}\"",
  "        environment:",
  "          SCOPE: \"{{version}}\"",
  "          ETCD_DISCOVERY_DOMAIN: \"{{discovery_domain}}\"",
  "          WAL_S3_BUCKET: \"{{wal_s3_bucket}}\"",
  "          PGPASSWORD_SUPERUSER: \"{{pgpassword_superuser}}\"",
  "          PGPASSWORD_ADMIN: \"{{pgpassword_admin}}\"",
  "          PGPASSWORD_STANDBY: \"{{pgpassword_standby}}\"",
  "        root: True",
  "        mounts:",
  "          /home/postgres/pgdata:",
  "            partition: /dev/xvdk",
  "            filesystem: {{fstype}}",
  "            \x7b\x7b\x23snapshot_id\x7d\x7d",
  "            erase_on_boot: false",
  "            {{/snapshot_id}}",
  "            {{^snapshot_id}}",
  "            erase_on_boot: true",
  "            {{/snapshot_id}}",
  "            options: {{fsoptions}}",
  "        \x7b\x7b\x23scalyr_account_key\x7d\x7d",
  "        scalyr_account_key: {{scalyr_account_key}}",
  "        {{/scalyr_account_key}}",
  "Resources:",
  "  \x7b\x7b\x23add_replica_loadbalancer\x7d\x7d",
  "  PostgresReplicaRoute53Record:",
  "    Type: AWS::Route53::RecordSet",
  "    Properties:",
  "      Type: CNAME",
  "      TTL: 20",
  "      HostedZoneName: {{hosted_zone}}",
  "      Name: \"{{version}}-replica.{{hosted_zone}}\"",
  "      ResourceRecords:",
  "        - Fn::GetAtt:",
  "           - PostgresReplicaLoadBalancer",
  "           - DNSName",
  "  PostgresReplicaLoadBalancer:",
  "    Type: AWS::ElasticLoadBalancing::LoadBalancer",
  "    Properties:",
  "      CrossZone: true",
  "      HealthCheck:",
  "        HealthyThreshold: 2",
  "        Interval: 5",
  "        Target: HTTP:{{healthcheck_port}}/replica",
  "        Timeout: 3",
  "        UnhealthyThreshold: 2",
  "      Listeners:",
  "        - InstancePort: {{postgres_port}}",
  "          LoadBalancerPort: {{postgres_port}}",
  "          Protocol: TCP",
  "      LoadBalancerName: \"spilo-{{version}}-replica\"",
  "      ConnectionSettings:",
  "        IdleTimeout: 3600",
  "      SecurityGroups:",
  "        - Fn::GetAtt:",
  "          - SpiloReplicaSG",
  "          - GroupId",
  "      Scheme: internal",
  "      Subnets:",
  "        Fn::FindInMap:",
  "          - LoadBalancerSubnets",
  "          - Ref: AWS::Region",
  "          - Subnets",
  "  {{/add_replica_loadbalancer}}",
  "  PostgresRoute53Record:",
  "    Type: AWS::Route53::RecordSet",
  "    Properties:",
  "      Type: CNAME",
  "      TTL: 20",
  "      HostedZoneName: {{hosted_zone}}",
  "      Name: \"{{version}}.{{hosted_zone}}\"",
  "      ResourceRecords:",
  "        - Fn::GetAtt:",
  "           - PostgresLoadBalancer",
  "           - DNSName",
  "  PostgresLoadBalancer:",
  "    Type: AWS::ElasticLoadBalancing::LoadBalancer",
  "    Properties:",
  "      CrossZone: true",
  "      HealthCheck:",
  "        HealthyThreshold: 2",
  "        Interval: 5",
  "        Target: HTTP:{{healthcheck_port}}/master",
  "        Timeout: 3",
  "        UnhealthyThreshold: 2",
  "      Listeners:",
  "        - InstancePort: {{postgres_port}}",
  "          LoadBalancerPort: {{postgres_port}}",
  "          Protocol: TCP",
  "      LoadBalancerName: \"spilo-{{version}}\"",
  "      ConnectionSettings:",
  "        IdleTimeout: 3600",
  "      SecurityGroups:",
  "        - Fn::GetAtt:",
  "          - SpiloMasterSG",
  "          - GroupId",
  "      Scheme: internal",
  "      Subnets:",
  "        Fn::FindInMap:",
  "          - LoadBalancerSubnets",
  "          - Ref: AWS::Region",
  "          - Subnets",
  "  PostgresAccessRole:",
  "    Type: AWS::IAM::Role",
  "    Properties:",
  "      AssumeRolePolicyDocument:",
  "        Version: \"2012-10-17\"",
  "        Statement:",
  "        - Effect: Allow",
  "          Principal:",
  "            Service: ec2.amazonaws.com",
  "          Action: sts:AssumeRole",
  "      Path: /",
  "      Policies:",
  "      - PolicyName: SpiloEC2S3KMSAccess",
  "        PolicyDocument:",
  "          Version: \"2012-10-17\"",
  "          Statement:",
  "          - Effect: Allow",
  "            Action:",
  "              - s3:ListBucket",
  "            Resource:",
  "              - \"arn:aws:s3:::{{wal_s3_bucket}}\"",
  "              - \"arn:aws:s3:::{{wal_s3_bucket}}/*\"",
  "          - Effect: Allow",
  "            Action:",
  "              - s3:*",
  "            Resource:",
  "              - \"arn:aws:s3:::{{wal_s3_bucket}}/spilo/{{version}}/*\"",
  "          - Effect: Allow",
  "            Action: ec2:CreateTags",
  "            Resource: \"*\"",
  "          - Effect: Allow",
  "            Action: ec2:Describe*",
  "            Resource: \"*\"",
  "          \x7b\x7b\x23kms_arn\x7d\x7d",
  "          - Effect: Allow",
  "            Action:",
  "              - \"kms:Decrypt\"",
  "              - \"kms:Encrypt\"",
  "            Resource:",
  "              - {{kms_arn}}",
  "          {{/kms_arn}}",
  "  SpiloMasterSG:",
  "    Type: \"AWS::EC2::SecurityGroup\"",
  "    Properties:",
  "      GroupDescription: \"Security Group for the master ELB of Spilo: {{version}}\"",
  "      SecurityGroupIngress:",
  "        - IpProtocol: tcp",
  "          FromPort: {{postgres_port}}",
  "          ToPort: {{postgres_port}}",
  "          CidrIp: {{elb_access_cidr}}",
  "  \x7b\x7b\x23add_replica_loadbalancer\x7d\x7d",
  "  SpiloReplicaSG:",
  "    Type: \"AWS::EC2::SecurityGroup\"",
  "    Properties:",
  "      GroupDescription: \"Security Group for the replica ELB of Spilo: {{version}}\"",
  "      SecurityGroupIngress:",
  "        - IpProtocol: tcp",
  "          FromPort: {{postgres_port}}",
  "          ToPort: {{postgres_port}}",
  "          CidrIp: {{elb_access_cidr}}",
  "  {{/add_replica_loadbalancer}}",
  "  SpiloMemberSG:",
  "    Type: \"AWS::EC2::SecurityGroup\"",
  "    Properties:",
  "      GroupDescription: \"Security Group for members of Spilo: {{version}}\"",
  "      SecurityGroupIngress:",
  "        - IpProtocol: tcp",
  "          FromPort: {{postgres_port}}",
  "          ToPort: {{postgres_port}}",
  "          SourceSecurityGroupId:",
  "            Fn::GetAtt:",
  "              - SpiloMasterSG",
  "              - GroupId",
  "        - IpProtocol: tcp",
  "          FromPort: {{healthcheck_port}}",
  "          ToPort: {{healthcheck_port}}",
  "          SourceSecurityGroupId:",
  "            Fn::GetAtt:",
  "              - SpiloMasterSG",
  "              - GroupId",
  "",
  "        \x7b\x7b\x23add_replica_loadbalancer\x7d\x7d",
  "        - IpProtocol: tcp",
  "          FromPort: {{postgres_port}}",
  "          ToPort: {{postgres_port}}",
  "          SourceSecurityGroupId:",
  "            Fn::GetAtt:",
  "              - SpiloReplicaSG",
  "              - GroupId",
  "        - IpProtocol: tcp",
  "          FromPort: {{healthcheck_port}}",
  "          ToPort: {{healthcheck_port}}",
  "          SourceSecurityGroupId:",
  "            Fn::GetAtt:",
  "              - SpiloReplicaSG",
  "              - GroupId",
  "        {{/add_replica_loadbalancer}}",
  "        \x7b\x7b\x23zmon_sg_id\x7d\x7d",
  "        - IpProtocol: tcp",
  "          FromPort: {{postgres_port}}",
  "          ToPort: {{postgres_port}}",
  "          SourceSecurityGroupId: \"{{zmon_sg_id}}\"",
  "        - IpProtocol: tcp",
  "          FromPort: {{healthcheck_port}}",
  "          ToPort: {{healthcheck_port}}",
  "          SourceSecurityGroupId: \"{{zmon_sg_id}}\"",
  "        {{/zmon_sg_id}}",
  "        \x7b\x7b\x23odd_sg_id\x7d\x7d",
  "        - IpProtocol: tcp",
  "          FromPort: 0",
  "          ToPort: 65535",
  "          SourceSecurityGroupId: \"{{odd_sg_id}}\"",
  "        {{/odd_sg_id}}",
  "  SpiloMemberIngressMembers:",
  "    Type: \"AWS::EC2::SecurityGroupIngress\"",
  "    Properties:",
  "      GroupId:",
  "        Fn::GetAtt:",
  "          - SpiloMemberSG",
  "          - GroupId",
  "      IpProtocol: tcp",
  "      FromPort: 0",
  "      ToPort: 65535",
  "      SourceSecurityGroupId:",
  "        Fn::GetAtt:",
  "          - SpiloMemberSG",
  "          - GroupId",
  ""]

/-- The multi-region HTTP deployment template string of `webappmultiregion.py`. -/
def WebAppMultiRegion.TEMPLATE : String := joinLines [
  "",
  "# basic information for generating and executing this definition",
  "SenzaInfo:",
  "  StackName: {{application_id}}",
  "  Parameters:",
  "    - ImageVersion:",
  "        Description: \"Docker image version of {{ application_id }}.\"",
  "",
  "# a list of senza components to apply to the definition",
  "SenzaComponents:",
  "",
  "  # this basic configuration is required for the other components",
  "  - Configuration:",
  "      Type: Senza::StupsAutoConfiguration # auto-detect network setup",
  "",
  "  # will create a launch configuration and auto scaling group with scaling triggers",
  "  - AppServer:",
  "      Type: Senza::TaupageAutoScalingGroup",
  "      InstanceType: {{ instance_type }}",
  "      SecurityGroups:",
  "        - Stack: {{application_id}}-base-resources",
  "          LogicalId: {{application_id_camel}}SecurityGroup",
  "      IamRoles:",
  "        - Stack: {{application_id}}-base-resources",
  "          LogicalId: {{application_id_camel}}Role",
  "      ElasticLoadBalancer: AppLoadBalancer",
  "      AssociatePublicIpAddress: false # change for standalone deployment in default VPC",
  "      TaupageConfig:",
  "        application_version: \"{{=<% %>=}}{{Arguments.ImageVersion}}<%={{ }}=%>\"",
  "        runtime: Docker",
  "        source: \"{{ docker_image }}:{{=<% %>=}}{{Arguments.ImageVersion}}<%={{ }}=%>\"",
  "        health_check_path: {{http_health_check_path}}",
  "        ports:",
  "          {{http_port}}: {{http_port}}",
  "        \x7b\x7b\x23mint_bucket\x7d\x7d",
  "        mint_bucket: \"{{ mint_bucket }}\"",
  "        {{/mint_bucket}}",
  "",
  "  # creates an ELB entry and Route53 domains to this ELB",
  "  - AppLoadBalancer:",
  "      Type: Senza::WeightedDnsElasticLoadBalancer",
  "      HTTPPort: {{http_port}}",
  "      HealthCheckPath: {{http_health_check_path}}",
  "      SecurityGroups:",
  "        - Stack: {{application_id}}-base-resources",
  "          LogicalId: {{application_id_camel}}LoadBalancerSecurityGroup",
  "      Scheme: {{loadbalancer_scheme}}",
  "      Domains:",
  "        MainDomain:",
  "          Type: weighted",
  "          Zone: \"{{hosted_zone}}\"",
  "          Subdomain: {{application_id}}-{{=<% %>=}}{{AccountInfo.Region}}<%={{ }}=%>",
  "        VersionDomain:",
  "          Type: standalone",
  "          Zone: \"{{hosted_zone}}\"",
  "          Subdomain: {{application_id}}-{{=<% %>=}}{{AccountInfo.Region}}-{{SenzaInfo.StackVersion}}<%={{ }}=%>",
  ""]

/-- The multi-region HTTP base-resources template string of `webappmultiregion.py`. -/
def WebAppMultiRegion.BASE_TEMPLATE : String := joinLines [
  "",
  "SenzaInfo:",
  "  StackName: {{application_id}}-base",
  "",
  "Resources:",
  "  {{application_id_camel}}RegionRecord:",
  "    Type: AWS::Route53::RecordSet",
  "    Properties:",
  "      Type: CNAME",
  "      TTL: 20",
  "      HostedZoneName: \"{{hosted_zone}}\"",
  "      Name: \"{{application_id}}.{{hosted_zone}}\"",
  "      Region: \"{{=<% %>=}}{{AccountInfo.Region}}<%={{ }}=%>\"",
  "      SetIdentifier: \"{{application_id}}-{{=<% %>=}}{{AccountInfo.Region}}<%={{ }}=%>\"",
  "      ResourceRecords:",
  "        - \"{{application_id}}-{{=<% %>=}}{{AccountInfo.Region}}<%={{ }}=%>.{{hosted_zone}}\"",
  "  {{application_id_camel}}Role:",
  "    Type: AWS::IAM::Role",
  "    Properties:",
  "      AssumeRolePolicyDocument:",
  "        Version: \"2012-10-17\"",
  "        Statement:",
  "        - Effect: Allow",
  "          Principal:",
  "            Service: ec2.amazonaws.com",
  "          Action: sts:AssumeRole",
  "      Path: /",
  "      \x7b\x7b\x23mint_bucket\x7d\x7d",
  "      Policies:",
  "      - PolicyName: AllowMintRead",
  "        PolicyDocument:",
  "          Version: \"2012-10-17\"",
  "          Statement:",
  "          - Effect: Allow",
  "            Action: \"s3:GetObject\"",
  "            Resource: [\"arn:aws:s3:::{{ mint_bucket }}/{{application_id}}/*\"]",
  "      {{/mint_bucket}}",
  "  {{application_id_camel}}SecurityGroup:",
  "    Type: AWS::EC2::SecurityGroup",
  "    Properties:",
  "      GroupDescription: \"app-{{application_id}}\"",
  "      Tags:",
  "        - Key: Name",
  "          Value: app-{{application_id}}",
  "      SecurityGroupIngress:",
  "        - IpProtocol: tcp",
  "          FromPort: 22",
  "          ToPort: 22",
  "          CidrIp: \"0.0.0.0/0\"",
  "        - IpProtocol: tcp",
  "          FromPort: 8080",
  "          ToPort: 8080",
  "          CidrIp: \"0.0.0.0/0\"",
  "        - IpProtocol: tcp",
  "          FromPort: 9100",
  "          ToPort: 9100",
  "          CidrIp: \"0.0.0.0/0\"",
  "  {{application_id_camel}}LoadBalancerSecurityGroup:",
  "    Type: AWS::EC2::SecurityGroup",
  "    Properties:",
  "      GroupDescription: \"app-{{application_id}}-lb\"",
  "      Tags:",
  "        - Key: Name",
  "          Value: app-{{application_id}}-lb",
  "      SecurityGroupIngress:",
  "        - IpProtocol: tcp",
  "          FromPort: 443",
  "          ToPort: 443",
  "          CidrIp: \"0.0.0.0/0\"",
  ""]

namespace PostgresApp

/-- `ebs_optimized_supported(instance_type)` (postgresapp.py lines 328-342). -/
def ebs_optimized_supported (instance_type : String) : Bool :=
  ["c1.large", "c3.xlarge", "c3.2xlarge", "c3.4xlarge",
   "c4.large", "c4.xlarge", "c4.2xlarge", "c4.4xlarge", "c4.8xlarge",
   "d2.xlarge", "d2.2xlarge", "d2.4xlarge", "d2.8xlarge",
   "g2.2xlarge", "i2.xlarge", "i2.2xlarge", "i2.4xlarge",
   "m1.large", "m1.xlarge", "m2.2xlarge", "m2.4xlarge",
   "m3.xlarge", "m3.2xlarge", "r3.xlarge", "r3.2xlarge",
   "r3.4xlarge"].contains instance_type

/-- The default table of `set_default_variables` (postgresapp.py lines
345-371), one `(key, default)` pair per `setdefault` call, in source order. -/
def defaultEntries : List (String × PyVal) :=
  [("version", .str "{{Arguments.version}}"),
   ("ImageVersion", .str "{{Arguments.ImageVersion}}"),
   ("discovery_domain", .str "postgres.example.com"),
   ("docker_image", .none),
   ("ebs_optimized", .none),
   ("elb_access_cidr", .str "0.0.0.0/0"),
   ("fsoptions", .str "noatime,nodiratime,nobarrier"),
   ("fstype", .str "ext4"),
   ("healthcheck_port", .int HEALTHCHECK_PORT),
   ("hosted_zone", .str "example.com"),
   ("add_replica_loadbalancer", .bool false),
   ("instance_type", .str "t2.micro"),
   ("kms_arn", .none),
   ("odd_sg_id", .none),
   ("pgpassword_admin", .str "admin"),
   ("pgpassword_standby", .str "standby"),
   ("pgpassword_superuser", .str "zalando"),
   ("postgres_port", .int POSTGRES_PORT),
   ("scalyr_account_key", .none),
   ("snapshot_id", .none),
   ("use_ebs", .bool true),
   ("volume_iops", .int 300),
   ("volume_size", .int 10),
   ("volume_type", .str "gp2"),
   ("wal_s3_bucket", .none),
   ("zmon_sg_id", .none)]

/-- `set_default_variables(variables)`: apply `variables.setdefault(k, v)`
for each entry of the default table, in order, and return the mapping. -/
def set_default_variables (vars : VarMap) : VarMap :=
  defaultEntries.foldl (fun m p => setDefaultVar m p.1 p.2) vars

/-- One entry of the registry's JSON tag listing: `{name, created}`.  The
creation timestamps are modelled as naturals ordered as the JSON values are. -/
structure TagEntry where
  name : String
  created : Nat
deriving DecidableEq, Repr

/-- `'SNAPSHOT' in tag`. -/
def isSnapshotTag (tag : String) : Bool :=
  pyInStr "SNAPSHOT" tag

/-- `latest = latest or tag` (Python `or`: `None` and `""` are falsy). -/
def pyOrTag (latest : Option String) (tag : String) : Option String :=
  match latest with
  | Option.none => some tag
  | some s => if s.isEmpty then some tag else some s

/-- The loop of `get_latest_spilo_image` (postgresapp.py lines 504-511): walk
the entries sorted by creation date, newest first; stop at the first
non-snapshot tag, otherwise keep the first tag seen. -/
def selectLoop : List TagEntry → Option String → Option String
  | [], latest => latest
  | e :: rest, latest =>
    if isSnapshotTag e.name then selectLoop rest (pyOrTag latest e.name)
    else some e.name

/-- `sorted(r.json(), key=lambda t: t['created'], reverse=True)`. -/
def sortByCreatedDesc (entries : List TagEntry) : List TagEntry :=
  entries.mergeSort (fun a b => decide (b.created ≤ a.created))

/-- The tag selected by `get_latest_spilo_image` from the registry entries. -/
def selectLatestTag (entries : List TagEntry) : Option String :=
  selectLoop (sortByCreatedDesc entries) Option.none

/-- Python `"{0}:{1}".format(addr, latest)` where `latest` may be `None`. -/
def formatTag (latest : Option String) : String :=
  match latest with
  | Option.none => "None"
  | some s => s

/-- The observable outcome of `requests.get(registry_url + address)` followed
by `r.ok` / `r.json()`: the request raises, or yields a response with an `ok`
flag and a body that either parses into a list of tag entries or is malformed
(any shape for which `r.json()` or the entry accesses raise). -/
inductive RegistryResponse where
  | raised : RegistryResponse
  | response : Bool → Option (List TagEntry) → RegistryResponse

/-- `get_latest_spilo_image(...)` (postgresapp.py lines 492-515).  The
`try/except` swallows every raise, falling through to `return ""`; a non-`ok`
response also falls through to `return ""`. -/
def get_latest_spilo_image (resp : RegistryResponse) : String :=
  match resp with
  | .raised => ""
  | .response ok body =>
    if ok then
      match body with
      | Option.none => ""
      | some entries =>
        SPILO_IMAGE_ADDRESS ++ ":" ++ formatTag (selectLatestTag entries)
    else ""

/-- Whether the registry lookup failed (network raise, non-OK HTTP response,
or unparseable/malformed body). -/
def registryFailure : RegistryResponse → Bool
  | .raised => true
  | .response ok body => !ok || body.isNone

/-- `string.ascii_uppercase + string.digits`. -/
def passwordAlphabet : List Char :=
  "ABCDEFGHIJKLMNOPQRSTUVWXYZ0123456789".data

/-- `generate_random_password(length)` (postgresapp.py lines 474-479): one
`random.SystemRandom().choice(alphabet)` per position.  The random source is
modelled by `pick`, giving for each position an index into the alphabet. -/
def generate_random_password (pick : Nat → Nat) (length : Nat := 64) : String :=
  String.mk ((List.range length).map
    (fun i => passwordAlphabet.getD (pick i % passwordAlphabet.length) 'A'))

/-- `generate_definition(variables)` (postgresapp.py lines 482-489). -/
def generate_definition (vars : VarMap) : String :=
  pystache_render TEMPLATE vars

end PostgresApp

/-! ## Interactive gathering, `postgresapp.gather_user_variables`

The collaborators called here — `prompt`, `check_s3_bucket`,
`get_account_alias` from `senza.templates._helper`, `click.confirm`,
`clickclick.choice`, and the AWS lookups `list_kms_keys`, `encrypt`,
`get_vpc_attribute`, `get_security_group`, `boto3` — are not under `src/`;
they are modelled from the spec (§4.2-§4.3) as data supplied by an
environment record: every prompt or confirmation answer, and every lookup
result, is a field of the environment. -/

/-- Modelled from the spec: `prompt(variables, key, ...)` from
`senza.templates._helper` (not under `src/`) solicits a value only for a key
the mapping does not already hold — the mapping may be "partially pre-filled
by a caller" and values are enriched "without overwriting already-present
values" (spec §3, §4.1).  The operator's response is supplied by the
environment; the shown default (kept here for reference) need not equal it. -/
def promptVar (m : VarMap) (key : String) (_shownDefault : PyVal)
    (answer : PyVal) : VarMap :=
  if containsVar m key then m else setVar m key answer

/-- `account_info` as used by the templates: `.Domain`, `.VpcID`, `.Region`. -/
structure AccountInfo where
  Domain : Option String
  VpcID : String
  Region : String

namespace PostgresApp

/-- One key of `list_kms_keys(region)` (spec §4.3): id, description, arn and
alias names. -/
structure KmsKey where
  KeyId : String
  Description : String
  Arn : String
  aliases : List String

/-- The environment of one `gather_user_variables` run: every operator
answer and every external lookup result (spec §4.2-§4.3). -/
structure PgEnv where
  setDockerImage : Bool
  registry : RegistryResponse
  dockerImageAnswer : String
  accountAlias : String
  walBucketAnswer : String
  instanceTypeAnswer : String
  discoveryDomainAnswer : String
  replicaConfirm : Bool
  vpcCidr : String
  elbCidrAnswer : String
  oddSecurityGroup : Option String
  oddConfirm : Bool
  zmonSecurityGroups : List String
  zmonConfirm : Bool
  zmonSgAnswer : String
  useEbsConfirm : Bool
  volumeSizeAnswer : Int
  volumeTypeAnswer : String
  volumeIopsAnswer : String
  snapshotIdAnswer : String
  fstypeAnswer : String
  fsoptionsAnswer : String
  scalyrAnswer : String
  pgSuperuserAnswer : String
  pgStandbyAnswer : String
  pgAdminAnswer : String
  encryptConfirm : Bool
  kmsKeys : List KmsKey
  kmsChoiceIndex : Nat
  encrypt : String → String → String

/-- Lines 379-380: optional docker image prompt, defaulting to the latest
spilo image from the registry. -/
def dockerStep (env : PgEnv) (m : VarMap) : VarMap :=
  if env.setDockerImage then
    promptVar m "docker_image" (.str (get_latest_spilo_image env.registry))
      (.str env.dockerImageAnswer)
  else m

/-- Lines 382-385: WAL bucket and instance type prompts. -/
def bucketInstanceStep (env : PgEnv) (region : String) (m : VarMap) : VarMap :=
  let m := promptVar m "wal_s3_bucket"
    (.str (env.accountAlias ++ "-" ++ region ++ "-spilo-app"))
    (.str env.walBucketAnswer)
  promptVar m "instance_type" (.str "t2.micro") (.str env.instanceTypeAnswer)

/-- Lines 387-391: hosted zone from the account domain (or the default),
forced to end with a trailing dot, then the discovery domain prompt. -/
def hostedZoneStep (env : PgEnv) (account_info : AccountInfo) (m : VarMap) :
    VarMap :=
  let defaults := set_default_variables []
  let hz0 := pyOrStr account_info.Domain (getStr defaults "hosted_zone")
  let hz := if pyLastSlice hz0 ≠ "." then hz0 ++ "." else hz0
  let m := setVar m "hosted_zone" (.str hz)
  promptVar m "discovery_domain" (.str ("postgres." ++ pyDropLast hz))
    (.str env.discoveryDomainAnswer)

/-- Lines 393-419: replica ELB confirmation, ELB access network prompt, odd
security group, and zmon security group discovery. -/
def networkStep (env : PgEnv) (m : VarMap) : VarMap :=
  let m := setVar m "add_replica_loadbalancer" (.bool env.replicaConfirm)
  let m := promptVar m "elb_access_cidr" (.str env.vpcCidr)
    (.str env.elbCidrAnswer)
  let m := match env.oddSecurityGroup with
    | some sgid => if env.oddConfirm then setVar m "odd_sg_id" (.str sgid) else m
    | Option.none => m
  let zmon_sgs := env.zmonSecurityGroups
  if zmon_sgs.length = 0 then m
  else if zmon_sgs.length > 1 then
    promptVar m "zmon_sg_id" .none (.str env.zmonSgAnswer)
  else setVar m "zmon_sg_id" (.str (zmon_sgs.getD 0 ""))

/-- Lines 421-441: EBS usage decision by instance family, volume prompts,
EBS optimization, filesystem and scalyr prompts. -/
def storageStep (env : PgEnv) (m : VarMap) : VarMap :=
  let defaults := set_default_variables []
  let fam := pySplitHead '.' (pyLower (getStr m "instance_type"))
  let m := if ["c3", "g2", "hi1", "i2", "m3", "r3"].contains fam then
      setVar m "use_ebs" (.bool env.useEbsConfirm)
    else setVar m "use_ebs" (.bool true)
  let m := if ((lookupVar m "use_ebs").getD .none).truthy then
      let m := promptVar m "volume_size" (.int (getInt defaults "volume_size"))
        (.int env.volumeSizeAnswer)
      let m := promptVar m "volume_type" (.str (getStr defaults "volume_type"))
        (.str env.volumeTypeAnswer)
      let m := if (lookupVar m "volume_type").getD .none = .str "io1" then
          let pio_max := getInt m "volume_size" * 30
          promptVar m "volume_iops" (.str (toString pio_max))
            (.str env.volumeIopsAnswer)
        else m
      let m := promptVar m "snapshot_id" (.str "") (.str env.snapshotIdAnswer)
      if ebs_optimized_supported (getStr m "instance_type") then
        setVar m "ebs_optimized" (.bool true)
      else m
    else m
  let m := promptVar m "fstype" (.str (getStr defaults "fstype"))
    (.str env.fstypeAnswer)
  let m := promptVar m "fsoptions" (.str (getStr defaults "fsoptions"))
    (.str env.fsoptionsAnswer)
  promptVar m "scalyr_account_key" (.str "") (.str env.scalyrAnswer)

/-- Lines 443-448: the three password prompts (the superuser and standby
defaults are lazily generated random passwords). -/
def passwordStep (env : PgEnv) (m : VarMap) : VarMap :=
  let defaults := set_default_variables []
  let m := promptVar m "pgpassword_superuser" .none (.str env.pgSuperuserAnswer)
  let m := promptVar m "pgpassword_standby" .none (.str env.pgStandbyAnswer)
  promptVar m "pgpassword_admin" (.str (getStr defaults "pgpassword_admin"))
    (.str env.pgAdminAnswer)

/-- The `click.UsageError` message of lines 454-455. -/
def kmsUsageError : String :=
  "No KMS key is available for encrypting and decrypting. " ++
  "Ensure you have at least 1 key available."

/-- Lines 450-465: optional KMS encryption of the passwords.  The filtered
key list being empty raises a `click.UsageError`; the `[0]` indexing of the
arn lookup raises `IndexError` when nothing matches the chosen key id. -/
def kmsStep (env : PgEnv) (m : VarMap) : Except String VarMap :=
  if env.encryptConfirm then
    let kms_keys := env.kmsKeys.filter
      (fun k => !(k.aliases.contains "alias/aws/ebs"))
    if kms_keys.length = 0 then
      .error kmsUsageError
    else
      let options := kms_keys.map (fun k => k.KeyId ++ ": " ++ k.Description)
      let kms_key := options.getD (env.kmsChoiceIndex % options.length) ""
      let kms_keyid := pySplitHead ':' kms_key
      match (kms_keys.filter (fun k => k.KeyId == kms_keyid)).head? with
      | Option.none => .error "IndexError: list index out of range"
      | some k =>
        let m := setVar m "kms_arn" (.str k.Arn)
        .ok (m.map (fun p =>
          if pyStartsWith "pgpassword_" p.1 then
            (p.1, PyVal.str ("aws:kms:" ++ env.encrypt kms_keyid p.2.render))
          else p))
  else .ok m

/-- `gather_user_variables(variables, region, account_info)` (postgresapp.py
lines 376-471).  `check_s3_bucket` (line 469) is an external side effect on
AWS (spec §4.3) and does not touch the mapping. -/
def gather_user_variables (env : PgEnv) (region : String)
    (account_info : AccountInfo) (vars : VarMap) : Except String VarMap :=
  let m := dockerStep env vars
  let m := bucketInstanceStep env region m
  let m := hostedZoneStep env account_info m
  let m := networkStep env m
  let m := storageStep env m
  let m := passwordStep env m
  match kmsStep env m with
  | .error e => .error e
  | .ok m => .ok (set_default_variables m)

end PostgresApp

namespace WebAppMultiRegion

/-- The environment of one multi-region `gather_user_variables` run. -/
structure WebEnv where
  appIdAnswer : String
  dockerImageAnswer : String
  httpPortAnswer : Int
  healthPathAnswer : String
  instanceTypeAnswer : String
  mintConfirm : Bool
  mintBucketName : String
  mintBucketAnswer : String
  lbSchemeAnswer : String

/-- The result of gathering: the final mapping and the files written
eagerly while gathering (name, content). -/
structure GatherResult where
  vars : VarMap
  files : List (String × String)

/-- `name[:name.rfind('.') if name.rfind('.') > 0 else len(name)]`
(webappmultiregion.py line 168): the configured definition file name with
its extension removed (the whole name when there is no usable dot). -/
def stemOf (name : String) : String :=
  let idx := pyRfind '.' name
  if idx > 0 then String.mk (name.data.take idx.toNat) else name

/-- `gather_user_variables(variables, region, account_info)`
(webappmultiregion.py lines 140-177): prompts, the camel-case application
id, the dot-terminated hosted zone, and the eager write of the
`<stem>-base.yaml` base-resources file rendered from `BASE_TEMPLATE`. -/
def gather_user_variables (env : WebEnv) (region : String)
    (account_info : AccountInfo) (vars : VarMap) : GatherResult :=
  let m := promptVar vars "application_id" (.str "hello-world")
    (.str env.appIdAnswer)
  let m := promptVar m "docker_image" (.str "stups/hello-world")
    (.str env.dockerImageAnswer)
  let m := promptVar m "http_port" (.int 8080) (.int env.httpPortAnswer)
  let m := promptVar m "http_health_check_path" (.str "/")
    (.str env.healthPathAnswer)
  let m := promptVar m "instance_type" (.str "t2.micro")
    (.str env.instanceTypeAnswer)
  let m := if pyInStr "pierone" (getStr m "docker_image") || env.mintConfirm then
      promptVar m "mint_bucket" (.str env.mintBucketName)
        (.str env.mintBucketAnswer)
    else setVar m "mint_bucket" .none
  let m := promptVar m "loadbalancer_scheme" (.str "internal")
    (.str env.lbSchemeAnswer)
  let camel := String.join ((pySplitChar '-' (getStr m "application_id").data).map
    (fun x => pyTitle (String.mk x)))
  let m := setVar m "application_id_camel" (.str camel)
  let hz0 := pyOrStr account_info.Domain "example.com"
  let hz := if pyLastSlice hz0 ≠ "." then hz0 ++ "." else hz0
  let m := setVar m "hosted_zone" (.str hz)
  let name := getStr m "definition_file"
  let base_file_name := stemOf name ++ "-base.yaml"
  let base_yaml := pystache_render BASE_TEMPLATE m
  { vars := m, files := [(base_file_name, base_yaml)] }

/-- `generate_definition(variables)` (webappmultiregion.py lines 180-182). -/
def generate_definition (vars : VarMap) : String :=
  pystache_render TEMPLATE vars

/-- Modelled from the spec: the `init` command driving this template (not
under `src/`) writes the text returned by `generate_definition` to the
configured `definition_file` — "the caller owns final output" (spec §4.5);
together with the eager base-resources write this is the full set of files
one invocation produces. -/
def invocationFiles (env : WebEnv) (region : String)
    (account_info : AccountInfo) (vars : VarMap) : List (String × String) :=
  let r := gather_user_variables env region account_info vars
  r.files ++ [(getStr r.vars "definition_file", generate_definition r.vars)]

end WebAppMultiRegion

/-! ### Example environments used by the witnesses -/

def accountInfoExample : AccountInfo where
  Domain := some "team.example.org"
  VpcID := "vpc-123"
  Region := "eu-central-1"

def pgEnvExample : PostgresApp.PgEnv where
  setDockerImage := false
  registry := .raised
  dockerImageAnswer := ""
  accountAlias := "myteam"
  walBucketAnswer := "myteam-eu-central-1-spilo-app"
  instanceTypeAnswer := "t2.micro"
  discoveryDomainAnswer := "postgres.team.example.org"
  replicaConfirm := false
  vpcCidr := "172.31.0.0/16"
  elbCidrAnswer := "172.31.0.0/16"
  oddSecurityGroup := Option.none
  oddConfirm := false
  zmonSecurityGroups := []
  zmonConfirm := false
  zmonSgAnswer := ""
  useEbsConfirm := true
  volumeSizeAnswer := 10
  volumeTypeAnswer := "gp2"
  volumeIopsAnswer := "300"
  snapshotIdAnswer := ""
  fstypeAnswer := "ext4"
  fsoptionsAnswer := "noatime"
  scalyrAnswer := ""
  pgSuperuserAnswer := "SUP1"
  pgStandbyAnswer := "STB1"
  pgAdminAnswer := "ADM1"
  encryptConfirm := false
  kmsKeys := []
  kmsChoiceIndex := 0
  encrypt := fun _ p => p

def pgEnvKmsEmpty : PostgresApp.PgEnv :=
  { pgEnvExample with encryptConfirm := true }

def webEnvExample : WebAppMultiRegion.WebEnv where
  appIdAnswer := "hello-world"
  dockerImageAnswer := "stups/hello-world"
  httpPortAnswer := 8080
  healthPathAnswer := "/"
  instanceTypeAnswer := "t2.micro"
  mintConfirm := false
  mintBucketName := "mint-bucket"
  mintBucketAnswer := "mint-bucket"
  lbSchemeAnswer := "internal"

/-! ## Lemmas and claim theorems -/

/-! ### Basic lemmas about the variable mapping -/

theorem lookupVar_setVar_self (m : VarMap) (k : String) (v : PyVal) :
    lookupVar (setVar m k v) k = some v := by
  induction m with
  | nil => simp [setVar, lookupVar]
  | cons p rest ih =>
    obtain ⟨k', v'⟩ := p
    by_cases h : k' = k <;> simp [setVar, lookupVar, h, ih]

theorem lookupVar_setVar_ne (m : VarMap) {k k' : String} (v : PyVal)
    (h : k' ≠ k) : lookupVar (setVar m k v) k' = lookupVar m k' := by
  have h' : ¬ k = k' := fun hk => h hk.symm
  induction m with
  | nil => simp [setVar, lookupVar, h']
  | cons p rest ih =>
    obtain ⟨k₀, v₀⟩ := p
    by_cases h₀ : k₀ = k
    · subst h₀
      simp [setVar, lookupVar, h']
    · by_cases h₁ : k₀ = k' <;> simp [setVar, lookupVar, h, h₀, h₁, ih]

theorem setDefaultVar_of_some {m : VarMap} {k : String} {v₀ : PyVal}
    (h : lookupVar m k = some v₀) (v : PyVal) : setDefaultVar m k v = m := by
  induction m with
  | nil => simp [lookupVar] at h
  | cons p rest ih =>
    obtain ⟨k₀, v'⟩ := p
    by_cases h₀ : k₀ = k
    · simp [setDefaultVar, h₀]
    · simp [lookupVar, h₀] at h
      simp [setDefaultVar, h₀, ih h]

theorem setDefaultVar_of_none {m : VarMap} {k : String}
    (h : lookupVar m k = Option.none) (v : PyVal) :
    setDefaultVar m k v = m ++ [(k, v)] := by
  induction m with
  | nil => simp [setDefaultVar]
  | cons p rest ih =>
    obtain ⟨k₀, v'⟩ := p
    by_cases h₀ : k₀ = k
    · simp [lookupVar, h₀] at h
    · simp [lookupVar, h₀] at h
      simp [setDefaultVar, h₀, ih h]

theorem lookupVar_append_of_some {m m' : VarMap} {k : String} {v : PyVal}
    (h : lookupVar m k = some v) : lookupVar (m ++ m') k = some v := by
  induction m with
  | nil => simp [lookupVar] at h
  | cons p rest ih =>
    obtain ⟨k₀, v₀⟩ := p
    by_cases h₀ : k₀ = k
    · simp [lookupVar, h₀] at h ⊢; exact h
    · simp [lookupVar, h₀] at h ⊢; exact ih h

/-- A `setdefault` never disturbs a key that is already bound. -/
theorem lookupVar_setDefaultVar_of_some {m : VarMap} {k k' : String} {v : PyVal}
    (h : lookupVar m k' = some v) (v₀ : PyVal) :
    lookupVar (setDefaultVar m k v₀) k' = some v := by
  cases hm : lookupVar m k with
  | some w => rw [setDefaultVar_of_some hm]; exact h
  | none => rw [setDefaultVar_of_none hm]; exact lookupVar_append_of_some h

theorem lastIndexOf_of_not_mem {c : Char} {l : List Char} (h : c ∉ l) :
    lastIndexOf c l = Option.none := by
  induction l with
  | nil => rfl
  | cons x xs ih =>
    simp only [List.mem_cons, not_or] at h
    have hx : ¬ x = c := fun hx => h.1 hx.symm
    simp [lastIndexOf, ih h.2, hx]

theorem lastIndexOf_append_cons {c : Char} {l₂ : List Char} (l₁ : List Char)
    (h : c ∉ l₂) : lastIndexOf c (l₁ ++ c :: l₂) = some l₁.length := by
  induction l₁ with
  | nil => simp [lastIndexOf, lastIndexOf_of_not_mem h]
  | cons x xs ih => simp [lastIndexOf, ih]

theorem takeWhile_ne_append {c : Char} {l₁ : List Char} (l₂ : List Char)
    (h : c ∉ l₁) : (l₁ ++ c :: l₂).takeWhile (· ≠ c) = l₁ := by
  induction l₁ with
  | nil => simp [List.takeWhile]
  | cons x xs ih =>
    simp only [List.mem_cons, not_or] at h
    have hx : ¬ x = c := fun hx => h.1 hx.symm
    have ih' := ih h.2
    simp only [ne_eq, decide_not] at ih'
    simp only [List.cons_append, List.takeWhile_cons]
    simp [hx, ih']

/-! ### Lemmas about `set_default_variables` -/

theorem lookupVar_foldlDefaults_of_some (L : List (String × PyVal))
    {m : VarMap} {k : String} {v : PyVal} (h : lookupVar m k = some v) :
    lookupVar (L.foldl (fun m p => setDefaultVar m p.1 p.2) m) k = some v := by
  induction L generalizing m with
  | nil => exact h
  | cons p rest ih => exact ih (lookupVar_setDefaultVar_of_some h p.2)

theorem lookupVar_setDefaultVar_self_isSome (m : VarMap) (k : String) (v : PyVal) :
    (lookupVar (setDefaultVar m k v) k).isSome := by
  cases hm : lookupVar m k with
  | some w => rw [setDefaultVar_of_some hm]; simp [hm]
  | none =>
    rw [setDefaultVar_of_none hm]
    induction m with
    | nil => simp [lookupVar]
    | cons p rest ih =>
      obtain ⟨k₀, v₀⟩ := p
      by_cases h₀ : k₀ = k
      · simp [lookupVar, h₀] at hm
      · simp [lookupVar, h₀] at hm ⊢
        exact ih hm

theorem containsVar_foldlDefaults (L : List (String × PyVal)) (m : VarMap) :
    ∀ p ∈ L, containsVar (L.foldl (fun m p => setDefaultVar m p.1 p.2) m) p.1 = true := by
  induction L generalizing m with
  | nil => intro p hp; cases hp
  | cons q rest ih =>
    intro p hp
    rcases List.mem_cons.mp hp with h | h
    · subst h
      rcases hq : lookupVar (setDefaultVar m p.1 p.2) p.1 with _ | w
      · have := lookupVar_setDefaultVar_self_isSome m p.1 p.2
        rw [hq] at this; simp at this
      · have h2 := lookupVar_foldlDefaults_of_some rest (m := setDefaultVar m p.1 p.2) hq
        simp [containsVar, h2]
    · exact ih (setDefaultVar m q.1 q.2) p h

theorem foldlDefaults_of_all_contained (L : List (String × PyVal)) (m : VarMap)
    (h : ∀ p ∈ L, containsVar m p.1 = true) :
    L.foldl (fun m p => setDefaultVar m p.1 p.2) m = m := by
  induction L with
  | nil => rfl
  | cons q rest ih =>
    have hq := h q (List.mem_cons_self q rest)
    rcases hl : lookupVar m q.1 with _ | w
    · simp [containsVar, hl] at hq
    · simp only [List.foldl_cons, setDefaultVar_of_some hl]
      exact ih (fun p hp => h p (List.mem_cons_of_mem q hp))

/-! ## Claim theorems -/

set_option maxRecDepth 100000 in
set_option maxHeartbeats 64000000 in
/-- C2: for every failure of the registry lookup — the request raising, a
non-OK HTTP response, or an unparseable/malformed response body —
`get_latest_spilo_image` returns the empty string; being a total function of
the response, it propagates no exception to its caller. -/
theorem get_latest_spilo_image_failure_empty (resp : PostgresApp.RegistryResponse)
    (h : PostgresApp.registryFailure resp = true) :
    PostgresApp.get_latest_spilo_image resp = "" := by
  cases resp with
  | raised => rfl
  | response ok body =>
    cases ok with
    | false => rfl
    | true =>
      cases body with
      | none => rfl
      | some entries => simp [PostgresApp.registryFailure] at h

/-- Witness for C2 at a concrete failing input. -/
theorem get_latest_spilo_image_failure_empty_witness :
    PostgresApp.get_latest_spilo_image (.response false Option.none) = "" :=
  get_latest_spilo_image_failure_empty (.response false Option.none) (by decide)

/-- C4: applying `set_default_variables` to the empty mapping yields a
mapping in which every key of the default table is present and bound to its
declared default value. -/
theorem set_default_variables_fills_empty (p : String × PyVal)
    (hp : p ∈ PostgresApp.defaultEntries) :
    lookupVar (PostgresApp.set_default_variables []) p.1 = some p.2 := by
  revert p
  decide

/-- Witness for C4 at a concrete default entry. -/
theorem set_default_variables_fills_empty_witness :
    lookupVar (PostgresApp.set_default_variables []) "hosted_zone"
      = some (.str "example.com") :=
  set_default_variables_fills_empty ("hosted_zone", .str "example.com") (by decide)

/-- C5: `set_default_variables` leaves every key already present in the
input mapping bound to its original value, and applying it twice yields the
same mapping as applying it once. -/
theorem set_default_variables_preserves_and_idempotent :
    (∀ (m : VarMap) (k : String) (v : PyVal), lookupVar m k = some v →
      lookupVar (PostgresApp.set_default_variables m) k = some v) ∧
    (∀ m : VarMap, PostgresApp.set_default_variables
        (PostgresApp.set_default_variables m) = PostgresApp.set_default_variables m) := by
  constructor
  · intro m k v h
    exact lookupVar_foldlDefaults_of_some PostgresApp.defaultEntries h
  · intro m
    exact foldlDefaults_of_all_contained PostgresApp.defaultEntries _
      (containsVar_foldlDefaults PostgresApp.defaultEntries m)

/-- Witness for C5 at a concrete mapping. -/
theorem set_default_variables_preserves_and_idempotent_witness :
    lookupVar (PostgresApp.set_default_variables [("use_ebs", PyVal.bool false)])
        "use_ebs" = some (.bool false) ∧
    PostgresApp.set_default_variables (PostgresApp.set_default_variables []) =
      PostgresApp.set_default_variables [] :=
  ⟨set_default_variables_preserves_and_idempotent.1 _ _ _ (by decide),
   set_default_variables_preserves_and_idempotent.2 []⟩

set_option maxRecDepth 100000 in
set_option maxHeartbeats 256000000 in
/-- C6: rendering the database template with `use_ebs` false omits the
`Ebs:` block and contains `VirtualName: ephemeral0`; rendering it with
`use_ebs` true contains the `Ebs:` block and omits `VirtualName: ephemeral0`. -/
theorem use_ebs_section_rendering :
    pyInStr "VirtualName: ephemeral0"
      (PostgresApp.generate_definition
        (PostgresApp.set_default_variables (setVar [] "use_ebs" (.bool false)))) = true ∧
    pyInStr "Ebs:"
      (PostgresApp.generate_definition
        (PostgresApp.set_default_variables (setVar [] "use_ebs" (.bool false)))) = false ∧
    pyInStr "Ebs:"
      (PostgresApp.generate_definition
        (PostgresApp.set_default_variables (setVar [] "use_ebs" (.bool true)))) = true ∧
    pyInStr "VirtualName: ephemeral0"
      (PostgresApp.generate_definition
        (PostgresApp.set_default_variables (setVar [] "use_ebs" (.bool true)))) = false := by
  refine ⟨by decide, by decide, by decide, by decide⟩

set_option maxRecDepth 100000 in
set_option maxHeartbeats 256000000 in
/-- C7: rendering the database template with `docker_image` at its `None`
default produces the `ImageVersion` parameter block; rendering it with a
non-empty `docker_image` omits every `ImageVersion` occurrence and uses the
supplied image as the Taupage source. -/
theorem docker_image_inverted_section_rendering :
    pyInStr "- ImageVersion:"
      (PostgresApp.generate_definition (PostgresApp.set_default_variables [])) = true ∧
    pyInStr "ImageVersion"
      (PostgresApp.generate_definition
        (PostgresApp.set_default_variables
          (setVar [] "docker_image" (.str "pierone.example.org/acid/spilo:1.0")))) = false ∧
    pyInStr "source: pierone.example.org/acid/spilo:1.0"
      (PostgresApp.generate_definition
        (PostgresApp.set_default_variables
          (setVar [] "docker_image" (.str "pierone.example.org/acid/spilo:1.0")))) = true := by
  refine ⟨by decide, by decide, by decide⟩

/-- C8: `generate_random_password` returns, for every requested length and
every random source, a string of exactly that many characters, each drawn
from the uppercase ASCII letters and decimal digits. -/
theorem generate_random_password_length_alphabet (pick : Nat → Nat) (L : Nat) :
    (PostgresApp.generate_random_password pick L).length = L ∧
    ∀ c ∈ (PostgresApp.generate_random_password pick L).data,
      c ∈ PostgresApp.passwordAlphabet := by
  constructor
  · simp [PostgresApp.generate_random_password, String.length]
  · intro c hc
    simp only [PostgresApp.generate_random_password, List.mem_map] at hc
    obtain ⟨i, _, rfl⟩ := hc
    have hlt : pick i % PostgresApp.passwordAlphabet.length <
        PostgresApp.passwordAlphabet.length := by
      exact Nat.mod_lt _ (by decide)
    rw [List.getD_eq_getElem?_getD, List.getElem?_eq_getElem hlt]
    exact List.getElem_mem hlt

/-- Witness for C8 at a concrete random source and length. -/
theorem generate_random_password_length_alphabet_witness :
    (PostgresApp.generate_random_password (fun i => 7 * i) 12).length = 12 ∧
    ∀ c ∈ (PostgresApp.generate_random_password (fun i => 7 * i) 12).data,
      c ∈ PostgresApp.passwordAlphabet :=
  generate_random_password_length_alphabet (fun i => 7 * i) 12

/-! ### Lemmas about the artifact tag selection (C1) -/

/-- A snapshot tag is a nonempty string. -/
theorem isSnapshotTag_isEmpty_false {s : String}
    (h : PostgresApp.isSnapshotTag s = true) : s.isEmpty = false := by
  cases hs : s.isEmpty with
  | false => rfl
  | true =>
    rw [String.isEmpty_iff] at hs
    subst hs
    simp [PostgresApp.isSnapshotTag, pyInStr, strContainsChars] at h

/-- If the sorted entry list has a non-snapshot entry, the loop stops at the
first one, which has maximal creation date among non-snapshot entries. -/
theorem selectLoop_of_exists_nonsnap :
    ∀ (l : List PostgresApp.TagEntry) (acc : Option String),
      l.Pairwise (fun a b => b.created ≤ a.created) →
      (∃ e ∈ l, PostgresApp.isSnapshotTag e.name = false) →
      ∃ e ∈ l, PostgresApp.isSnapshotTag e.name = false ∧
        PostgresApp.selectLoop l acc = some e.name ∧
        ∀ f ∈ l, PostgresApp.isSnapshotTag f.name = false → f.created ≤ e.created
  | [], acc, _, hex => by simp at hex
  | e :: rest, acc, hp, hex => by
    cases hsnap : PostgresApp.isSnapshotTag e.name with
    | false =>
      refine ⟨e, List.mem_cons_self e rest, hsnap, ?_, ?_⟩
      · simp [PostgresApp.selectLoop, hsnap]
      · intro f hf _
        rcases List.mem_cons.mp hf with h | h
        · subst h; exact Nat.le_refl _
        · exact (List.pairwise_cons.mp hp).1 f h
    | true =>
      have hex' : ∃ e' ∈ rest, PostgresApp.isSnapshotTag e'.name = false := by
        rcases hex with ⟨e', he', hs'⟩
        rcases List.mem_cons.mp he' with h | h
        · subst h; rw [hsnap] at hs'; cases hs'
        · exact ⟨e', h, hs'⟩
      obtain ⟨e', he', hs', hsel, hmax⟩ :=
        selectLoop_of_exists_nonsnap rest (PostgresApp.pyOrTag acc e.name)
          (List.pairwise_cons.mp hp).2 hex'
      refine ⟨e', List.mem_cons_of_mem e he', hs', ?_, ?_⟩
      · simp [PostgresApp.selectLoop, hsnap, hsel]
      · intro f hf hfs
        rcases List.mem_cons.mp hf with h | h
        · subst h; rw [hsnap] at hfs; cases hfs
        · exact hmax f h hfs

/-- With only snapshot entries left and a nonempty accumulated tag, the loop
keeps the accumulated tag. -/
theorem selectLoop_all_snap_acc :
    ∀ (l : List PostgresApp.TagEntry) (acc : String), acc.isEmpty = false →
      (∀ e ∈ l, PostgresApp.isSnapshotTag e.name = true) →
      PostgresApp.selectLoop l (some acc) = some acc
  | [], acc, _, _ => rfl
  | e :: rest, acc, hacc, hall => by
    have hsnap := hall e (List.mem_cons_self e rest)
    have : PostgresApp.pyOrTag (some acc) e.name = some acc := by
      simp [PostgresApp.pyOrTag, hacc]
    simp only [PostgresApp.selectLoop, hsnap, if_true, this]
    exact selectLoop_all_snap_acc rest acc hacc
      (fun f hf => hall f (List.mem_cons_of_mem e hf))

/-- With only snapshot entries, the loop returns the first entry's tag. -/
theorem selectLoop_all_snap :
    ∀ (e : PostgresApp.TagEntry) (rest : List PostgresApp.TagEntry),
      (∀ f ∈ e :: rest, PostgresApp.isSnapshotTag f.name = true) →
      PostgresApp.selectLoop (e :: rest) Option.none = some e.name := by
  intro e rest hall
  have hsnap := hall e (List.mem_cons_self e rest)
  simp only [PostgresApp.selectLoop, hsnap, if_true, PostgresApp.pyOrTag]
  exact selectLoop_all_snap_acc rest e.name (isSnapshotTag_isEmpty_false hsnap)
    (fun f hf => hall f (List.mem_cons_of_mem e hf))

/-- The sorted entry list is pairwise descending by creation date. -/
theorem sortByCreatedDesc_pairwise (entries : List PostgresApp.TagEntry) :
    (PostgresApp.sortByCreatedDesc entries).Pairwise
      (fun a b => b.created ≤ a.created) := by
  have h := @List.sorted_mergeSort PostgresApp.TagEntry
    (fun a b : PostgresApp.TagEntry => decide (b.created ≤ a.created))
    (fun a b c hab hbc => by
      simp only [decide_eq_true_eq] at hab hbc ⊢; omega)
    (fun a b => by simp [Nat.le_total]) entries
  exact h.imp (fun hab => by simpa using hab)

theorem mem_sortByCreatedDesc {e : PostgresApp.TagEntry}
    {entries : List PostgresApp.TagEntry} :
    e ∈ PostgresApp.sortByCreatedDesc entries ↔ e ∈ entries := by
  simp [PostgresApp.sortByCreatedDesc]

/-- C1: `get_latest_spilo_image` selects the most recently created entry
whose name does not contain `SNAPSHOT`; if every entry is a snapshot it
selects the most recently created entry overall; in particular, for entries
`[(1.0, t1), (2.0-SNAPSHOT, t2)]` with `t1 < t2` the selected tag is `1.0`. -/
theorem selectLatestTag_newest_nonsnapshot (entries : List PostgresApp.TagEntry) :
    ((∃ e ∈ entries, PostgresApp.isSnapshotTag e.name = false) →
      ∃ e ∈ entries, PostgresApp.isSnapshotTag e.name = false ∧
        PostgresApp.selectLatestTag entries = some e.name ∧
        ∀ f ∈ entries, PostgresApp.isSnapshotTag f.name = false →
          f.created ≤ e.created) ∧
    (entries ≠ [] → (∀ e ∈ entries, PostgresApp.isSnapshotTag e.name = true) →
      ∃ e ∈ entries, PostgresApp.selectLatestTag entries = some e.name ∧
        ∀ f ∈ entries, f.created ≤ e.created) ∧
    (∀ t1 t2 : Nat, t1 < t2 →
      PostgresApp.get_latest_spilo_image
        (.response true (some [⟨"1.0", t1⟩, ⟨"2.0-SNAPSHOT", t2⟩])) =
        "registry.opensource.zalan.do/acid/spilo-9.4:1.0") := by
  refine ⟨?_, ?_, ?_⟩
  · intro hex
    obtain ⟨e, he, hs, hsel, hmax⟩ :=
      selectLoop_of_exists_nonsnap (PostgresApp.sortByCreatedDesc entries)
        Option.none (sortByCreatedDesc_pairwise entries)
        (by rcases hex with ⟨e, he, hs⟩
            exact ⟨e, mem_sortByCreatedDesc.mpr he, hs⟩)
    exact ⟨e, mem_sortByCreatedDesc.mp he, hs, hsel,
      fun f hf hfs => hmax f (mem_sortByCreatedDesc.mpr hf) hfs⟩
  · intro hne hall
    have hall' : ∀ f ∈ PostgresApp.sortByCreatedDesc entries,
        PostgresApp.isSnapshotTag f.name = true :=
      fun f hf => hall f (mem_sortByCreatedDesc.mp hf)
    rcases hs : PostgresApp.sortByCreatedDesc entries with _ | ⟨e, rest⟩
    · have : entries = [] := by
        have hp := List.mergeSort_perm entries
          (fun a b : PostgresApp.TagEntry => decide (b.created ≤ a.created))
        rw [PostgresApp.sortByCreatedDesc] at hs
        rw [hs] at hp
        exact (List.Perm.nil_eq hp).symm
      exact absurd this hne
    · rw [hs] at hall'
      have hsel := selectLoop_all_snap e rest hall'
      have hpw := sortByCreatedDesc_pairwise entries
      rw [hs] at hpw
      refine ⟨e, ?_, ?_, ?_⟩
      · exact mem_sortByCreatedDesc.mp (hs ▸ List.mem_cons_self e rest)
      · rw [PostgresApp.selectLatestTag, hs]; exact hsel
      · intro f hf
        have hf' : f ∈ e :: rest := hs ▸ mem_sortByCreatedDesc.mpr hf
        rcases List.mem_cons.mp hf' with h | h
        · subst h; exact Nat.le_refl _
        · exact (List.pairwise_cons.mp hpw).1 f h
  · intro t1 t2 hlt
    have hex : ∃ e ∈ [(⟨"1.0", t1⟩ : PostgresApp.TagEntry), ⟨"2.0-SNAPSHOT", t2⟩],
        PostgresApp.isSnapshotTag e.name = false :=
      ⟨⟨"1.0", t1⟩, by simp, by show PostgresApp.isSnapshotTag "1.0" = false; decide⟩
    obtain ⟨e, he, hs, hsel, _⟩ :=
      selectLoop_of_exists_nonsnap
        (PostgresApp.sortByCreatedDesc [⟨"1.0", t1⟩, ⟨"2.0-SNAPSHOT", t2⟩])
        Option.none (sortByCreatedDesc_pairwise _)
        (by rcases hex with ⟨e, he, hs'⟩
            exact ⟨e, mem_sortByCreatedDesc.mpr he, hs'⟩)
    have he' := mem_sortByCreatedDesc.mp he
    have hname : e.name = "1.0" := by
      rcases List.mem_cons.mp he' with h | h
      · rw [h]
      · simp only [List.mem_singleton] at h
        subst h
        change PostgresApp.isSnapshotTag "2.0-SNAPSHOT" = false at hs
        exact absurd hs (by decide)
    have hsel' : PostgresApp.selectLatestTag
        [⟨"1.0", t1⟩, ⟨"2.0-SNAPSHOT", t2⟩] = some e.name := hsel
    show PostgresApp.SPILO_IMAGE_ADDRESS ++ ":" ++
      PostgresApp.formatTag (PostgresApp.selectLatestTag
        [⟨"1.0", t1⟩, ⟨"2.0-SNAPSHOT", t2⟩]) = _
    rw [hsel', hname]
    decide

/-- Witness for C1 at concrete creation dates. -/
theorem selectLatestTag_newest_nonsnapshot_witness :
    PostgresApp.get_latest_spilo_image
      (.response true (some [⟨"1.0", 1⟩, ⟨"2.0-SNAPSHOT", 2⟩])) =
      "registry.opensource.zalan.do/acid/spilo-9.4:1.0" :=
  (selectLatestTag_newest_nonsnapshot [⟨"1.0", 1⟩, ⟨"2.0-SNAPSHOT", 2⟩]).2.2
    1 2 (by decide)

theorem lookupVar_promptVar_ne (m : VarMap) (key : String) (d a : PyVal)
    {k : String} (h : k ≠ key) :
    lookupVar (promptVar m key d a) k = lookupVar m k := by
  unfold promptVar
  split
  · rfl
  · exact lookupVar_setVar_ne m a h

/-! ### String lemmas for the hosted zone and the file stem -/

theorem string_mk_data (s : String) : String.mk s.data = s := rfl

theorem string_data_ne_nil {s : String} (h : s ≠ "") : s.data ≠ [] := by
  intro h0
  apply h
  cases s with
  | mk l => cases h0; rfl

/-- The dot-forcing step of both `gather_user_variables` functions leaves a
string whose last character is `'.'`. -/
theorem ensureDot_getLast (s : String) :
    (if pyLastSlice s ≠ "." then s ++ "." else s).data.getLast? = some '.' := by
  by_cases h : pyLastSlice s = "."
  · rw [if_neg (by simp [h])]
    cases hl : s.data.getLast? with
    | none => simp [pyLastSlice, hl] at h
    | some c =>
      simp only [pyLastSlice, hl] at h
      have hc : c = '.' := by
        have := congrArg String.data h
        simpa using this
      rw [hc]
  · rw [if_pos (by simp [h])]
    rw [String.data_append]
    exact List.getLast?_concat _

/-- The stem of `stem ++ ".yaml"` is `stem` again whenever `stem` is
nonempty. -/
theorem stemOf_append_yaml (stem : String) (h : stem ≠ "") :
    WebAppMultiRegion.stemOf (stem ++ ".yaml") = stem := by
  have hdata : (stem ++ ".yaml").data = stem.data ++ '.' :: "yaml".data :=
    String.data_append stem ".yaml"
  have hlast : lastIndexOf '.' (stem ++ ".yaml").data = some stem.data.length := by
    rw [hdata]; exact lastIndexOf_append_cons stem.data (by decide)
  have hrfind : pyRfind '.' (stem ++ ".yaml") = (stem.data.length : Int) := by
    unfold pyRfind
    rw [hlast]
  have hpos : (0 : Int) < (stem.data.length : Int) := by
    have := string_data_ne_nil h
    have hlen : 0 < stem.data.length := List.length_pos.mpr this
    exact_mod_cast hlen
  unfold WebAppMultiRegion.stemOf
  rw [hrfind, if_pos hpos, Int.toNat_natCast, hdata, List.take_left]

/-! ### Preservation lemmas for the gathering phases -/

theorem lookupVar_networkStep_hosted (env : PostgresApp.PgEnv) (m : VarMap) :
    lookupVar (PostgresApp.networkStep env m) "hosted_zone" =
      lookupVar m "hosted_zone" := by
  simp only [PostgresApp.networkStep]
  repeat' split
  all_goals simp [lookupVar_setVar_ne, lookupVar_promptVar_ne]

theorem lookupVar_storageStep_hosted (env : PostgresApp.PgEnv) (m : VarMap) :
    lookupVar (PostgresApp.storageStep env m) "hosted_zone" =
      lookupVar m "hosted_zone" := by
  simp only [PostgresApp.storageStep]
  repeat' split
  all_goals simp [lookupVar_setVar_ne, lookupVar_promptVar_ne]

theorem lookupVar_passwordStep_hosted (env : PostgresApp.PgEnv) (m : VarMap) :
    lookupVar (PostgresApp.passwordStep env m) "hosted_zone" =
      lookupVar m "hosted_zone" := by
  simp only [PostgresApp.passwordStep]
  simp [lookupVar_promptVar_ne]

/-- Rewriting only the `pgpassword_`-prefixed values leaves the lookup of
any other key unchanged. -/
theorem lookupVar_map_pgpasswords (m : VarMap) (f : String × PyVal → PyVal)
    {k : String} (hk : pyStartsWith "pgpassword_" k = false) :
    lookupVar (m.map (fun p =>
      if pyStartsWith "pgpassword_" p.1 then (p.1, f p) else p)) k =
      lookupVar m k := by
  induction m with
  | nil => rfl
  | cons p rest ih =>
    obtain ⟨k₀, v₀⟩ := p
    simp only [List.map_cons]
    by_cases h₀ : k₀ = k
    · subst h₀
      rw [hk]
      simp [lookupVar]
    · cases hs : pyStartsWith "pgpassword_" k₀ <;>
        simp [lookupVar, h₀, ih]

theorem lookupVar_kmsStep_hosted (env : PostgresApp.PgEnv) {m m' : VarMap}
    (h : PostgresApp.kmsStep env m = .ok m') :
    lookupVar m' "hosted_zone" = lookupVar m "hosted_zone" := by
  simp only [PostgresApp.kmsStep] at h
  split at h
  · split at h
    · cases h
    · split at h
      · cases h
      · cases h
        rw [lookupVar_map_pgpasswords _ _
          (show pyStartsWith "pgpassword_" "hosted_zone" = false from by decide)]
        exact lookupVar_setVar_ne m _ (show ("hosted_zone" : String) ≠ "kms_arn" from by decide)
  · cases h
    rfl

/-- After the hosted zone step, `hosted_zone` is bound to a string ending in
a dot. -/
theorem lookupVar_hostedZoneStep (env : PostgresApp.PgEnv)
    (account_info : AccountInfo) (m : VarMap) :
    ∃ s : String, lookupVar (PostgresApp.hostedZoneStep env account_info m)
        "hosted_zone" = some (.str s) ∧ s.data.getLast? = some '.' := by
  refine ⟨_, ?_, ensureDot_getLast
    (pyOrStr account_info.Domain (getStr (PostgresApp.set_default_variables []) "hosted_zone"))⟩
  simp only [PostgresApp.hostedZoneStep]
  rw [lookupVar_promptVar_ne _ _ _ _
    (show ("hosted_zone" : String) ≠ "discovery_domain" from by decide)]
  exact lookupVar_setVar_self _ _ _

/-- `set_default_variables` keeps any bound key bound to its value. -/
theorem lookupVar_set_default_of_some {m : VarMap} {k : String} {v : PyVal}
    (h : lookupVar m k = some v) :
    lookupVar (PostgresApp.set_default_variables m) k = some v :=
  lookupVar_foldlDefaults_of_some PostgresApp.defaultEntries h

/-! ### The KMS abort characterization (C3) -/

/-- `kmsStep` fails exactly when encryption was requested and the filtered
key list is empty, and then with the `click.UsageError` message.  The
hypothesis reflects that AWS KMS key ids never contain a colon, which makes
the option-string round trip of lines 457-459 recover the chosen key. -/
theorem kmsStep_characterization (env : PostgresApp.PgEnv) (m : VarMap)
    (hcolon : ∀ k ∈ env.kmsKeys, ':' ∉ k.KeyId.data) :
    ((env.encryptConfirm = true ∧
        env.kmsKeys.filter (fun k => !(k.aliases.contains "alias/aws/ebs")) = []) →
      PostgresApp.kmsStep env m = .error PostgresApp.kmsUsageError) ∧
    (∀ e, PostgresApp.kmsStep env m = .error e →
      e = PostgresApp.kmsUsageError ∧ env.encryptConfirm = true ∧
      env.kmsKeys.filter (fun k => !(k.aliases.contains "alias/aws/ebs")) = []) := by
  cases hc : env.encryptConfirm with
  | false =>
    have hstep : PostgresApp.kmsStep env m = .ok m := by
      simp [PostgresApp.kmsStep, hc]
    constructor
    · rintro ⟨h1, -⟩
      cases h1
    · intro e he
      rw [hstep] at he
      cases he
  | true =>
    by_cases hlen :
        (env.kmsKeys.filter (fun k => !(k.aliases.contains "alias/aws/ebs"))).length = 0
    · have hstep : PostgresApp.kmsStep env m = .error PostgresApp.kmsUsageError := by
        simp only [PostgresApp.kmsStep, hc, if_true]
        rw [if_pos hlen]
      refine ⟨fun _ => hstep, fun e he => ?_⟩
      rw [hstep] at he
      injection he with h
      exact ⟨h.symm, rfl, List.length_eq_zero.mp hlen⟩
    · -- a key exists: the step succeeds, so no error arises on this branch
      have hpos : 0 <
          (env.kmsKeys.filter (fun k => !(k.aliases.contains "alias/aws/ebs"))).length :=
        Nat.pos_of_ne_zero hlen
      have hi : env.kmsChoiceIndex %
          (env.kmsKeys.filter (fun k => !(k.aliases.contains "alias/aws/ebs"))).length <
          (env.kmsKeys.filter (fun k => !(k.aliases.contains "alias/aws/ebs"))).length :=
        Nat.mod_lt _ hpos
      obtain ⟨kk, hkk⟩ : ∃ kk,
          (env.kmsKeys.filter (fun k => !(k.aliases.contains "alias/aws/ebs")))[
            env.kmsChoiceIndex %
              (env.kmsKeys.filter (fun k => !(k.aliases.contains "alias/aws/ebs"))).length]? =
            some kk :=
        ⟨_, List.getElem?_eq_getElem hi⟩
      have hgetD :
          ((env.kmsKeys.filter (fun k => !(k.aliases.contains "alias/aws/ebs"))).map
            (fun k => k.KeyId ++ ": " ++ k.Description)).getD
            (env.kmsChoiceIndex %
              (env.kmsKeys.filter (fun k => !(k.aliases.contains "alias/aws/ebs"))).length)
            "" = kk.KeyId ++ ": " ++ kk.Description := by
        rw [List.getD_eq_getElem?_getD, List.getElem?_map, hkk]
        rfl
      have hmemfilter :
          kk ∈ env.kmsKeys.filter (fun k => !(k.aliases.contains "alias/aws/ebs")) :=
        List.getElem?_mem hkk
      have hmem : kk ∈ env.kmsKeys := (List.mem_filter.mp hmemfilter).1
      have hsplit : pySplitHead ':' (kk.KeyId ++ ": " ++ kk.Description) = kk.KeyId := by
        have hdata : (kk.KeyId ++ ": " ++ kk.Description).data =
            kk.KeyId.data ++ ':' :: (' ' :: kk.Description.data) := by
          simp [String.data_append]
        rw [pySplitHead, hdata, takeWhile_ne_append _ (hcolon _ hmem)]
      have hmemf2 : kk ∈
          (env.kmsKeys.filter (fun k => !(k.aliases.contains "alias/aws/ebs"))).filter
            (fun k => k.KeyId == kk.KeyId) :=
        List.mem_filter.mpr ⟨hmemfilter, by simp⟩
      obtain ⟨hd, tl, hht⟩ := List.exists_cons_of_ne_nil (List.ne_nil_of_mem hmemf2)
      refine ⟨fun hcond => absurd (by rw [hcond.2]; rfl) hlen, fun e he => ?_⟩
      simp only [PostgresApp.kmsStep, hc, if_true] at he
      rw [if_neg hlen] at he
      rw [List.length_map, hgetD, hsplit] at he
      rw [hht] at he
      simp at he

/-! ### Webapp gathering lemmas (C9) -/

theorem lookupVar_webGather_def_file (env : WebAppMultiRegion.WebEnv)
    (region : String) (account_info : AccountInfo) (vars : VarMap) :
    lookupVar (WebAppMultiRegion.gather_user_variables env region account_info vars).vars
      "definition_file" = lookupVar vars "definition_file" := by
  simp only [WebAppMultiRegion.gather_user_variables]
  repeat' split
  all_goals simp [lookupVar_setVar_ne, lookupVar_promptVar_ne]

theorem webGather_files (env : WebAppMultiRegion.WebEnv) (region : String)
    (account_info : AccountInfo) (vars : VarMap) :
    (WebAppMultiRegion.gather_user_variables env region account_info vars).files =
      [(WebAppMultiRegion.stemOf (getStr
          (WebAppMultiRegion.gather_user_variables env region account_info vars).vars
          "definition_file") ++ "-base.yaml",
        pystache_render WebAppMultiRegion.BASE_TEMPLATE
          (WebAppMultiRegion.gather_user_variables env region account_info vars).vars)] := by
  simp only [WebAppMultiRegion.gather_user_variables]

/-- C3: if the operator requests KMS password encryption and the filtered
key list is empty, `gather_user_variables` aborts with the user-facing
usage error — and this is the only error the function ever produces: every
other path returns a mapping.  (AWS key ids contain no colon, which the
hypothesis records.) -/
theorem gather_aborts_iff_kms_missing (env : PostgresApp.PgEnv)
    (region : String) (account_info : AccountInfo) (vars : VarMap)
    (hcolon : ∀ k ∈ env.kmsKeys, ':' ∉ k.KeyId.data) :
    ((env.encryptConfirm = true ∧
        env.kmsKeys.filter (fun k => !(k.aliases.contains "alias/aws/ebs")) = []) →
      PostgresApp.gather_user_variables env region account_info vars =
        .error PostgresApp.kmsUsageError) ∧
    (∀ e, PostgresApp.gather_user_variables env region account_info vars = .error e →
      e = PostgresApp.kmsUsageError ∧ env.encryptConfirm = true ∧
      env.kmsKeys.filter (fun k => !(k.aliases.contains "alias/aws/ebs")) = []) := by
  constructor
  · intro hcond
    have hstep := (kmsStep_characterization env
      (PostgresApp.passwordStep env (PostgresApp.storageStep env
        (PostgresApp.networkStep env (PostgresApp.hostedZoneStep env account_info
          (PostgresApp.bucketInstanceStep env region
            (PostgresApp.dockerStep env vars)))))) hcolon).1 hcond
    simp only [PostgresApp.gather_user_variables]
    rw [hstep]
  · intro e he
    simp only [PostgresApp.gather_user_variables] at he
    cases hk : PostgresApp.kmsStep env
        (PostgresApp.passwordStep env (PostgresApp.storageStep env
          (PostgresApp.networkStep env (PostgresApp.hostedZoneStep env account_info
            (PostgresApp.bucketInstanceStep env region
              (PostgresApp.dockerStep env vars)))))) with
    | error e' =>
      rw [hk] at he
      simp only [] at he
      injection he with h
      obtain ⟨h1, h2, h3⟩ := (kmsStep_characterization env _ hcolon).2 e' hk
      exact ⟨h ▸ h1, h2, h3⟩
    | ok m7 =>
      rw [hk] at he
      cases he

/-- Witness for C3: with encryption requested and no KMS key at all, the
gathering aborts with the usage error. -/
theorem gather_aborts_iff_kms_missing_witness :
    PostgresApp.gather_user_variables pgEnvKmsEmpty "eu-central-1"
      accountInfoExample [] = .error PostgresApp.kmsUsageError :=
  (gather_aborts_iff_kms_missing pgEnvKmsEmpty "eu-central-1" accountInfoExample []
    (by intro k hk; simp [pgEnvKmsEmpty, pgEnvExample] at hk)).1 ⟨rfl, rfl⟩

/-- C10: after gathering completes in either pattern, `hosted_zone` is bound
to a string that ends with a trailing `'.'`, whether it came from the
account's domain or from the fallback default. -/
theorem hosted_zone_trailing_dot :
    (∀ (env : PostgresApp.PgEnv) (region : String) (account_info : AccountInfo)
        (vars out : VarMap),
      PostgresApp.gather_user_variables env region account_info vars = .ok out →
      ∃ s : String, lookupVar out "hosted_zone" = some (.str s) ∧
        s.data.getLast? = some '.') ∧
    (∀ (env : WebAppMultiRegion.WebEnv) (region : String)
        (account_info : AccountInfo) (vars : VarMap),
      ∃ s : String,
        lookupVar (WebAppMultiRegion.gather_user_variables env region
          account_info vars).vars "hosted_zone" = some (.str s) ∧
        s.data.getLast? = some '.') := by
  constructor
  · intro env region account_info vars out hout
    obtain ⟨s, hs, hdot⟩ := lookupVar_hostedZoneStep env account_info
      (PostgresApp.bucketInstanceStep env region (PostgresApp.dockerStep env vars))
    simp only [PostgresApp.gather_user_variables] at hout
    cases hk : PostgresApp.kmsStep env
        (PostgresApp.passwordStep env (PostgresApp.storageStep env
          (PostgresApp.networkStep env (PostgresApp.hostedZoneStep env account_info
            (PostgresApp.bucketInstanceStep env region
              (PostgresApp.dockerStep env vars)))))) with
    | error e' =>
      rw [hk] at hout
      cases hout
    | ok m7 =>
      rw [hk] at hout
      injection hout with hout'
      refine ⟨s, ?_, hdot⟩
      rw [← hout']
      apply lookupVar_set_default_of_some
      rw [lookupVar_kmsStep_hosted env hk, lookupVar_passwordStep_hosted,
        lookupVar_storageStep_hosted, lookupVar_networkStep_hosted]
      exact hs
  · intro env region account_info vars
    refine ⟨_, ?_, ensureDot_getLast (pyOrStr account_info.Domain "example.com")⟩
    simp only [WebAppMultiRegion.gather_user_variables]
    exact lookupVar_setVar_self _ _ _

/-- Witness for C10 at concrete environments for both patterns. -/
theorem hosted_zone_trailing_dot_witness :
    (∃ (out : VarMap) (s : String),
      PostgresApp.gather_user_variables pgEnvExample "eu-central-1"
        accountInfoExample [] = .ok out ∧
      lookupVar out "hosted_zone" = some (.str s) ∧
      s.data.getLast? = some '.') ∧
    (∃ s : String,
      lookupVar (WebAppMultiRegion.gather_user_variables webEnvExample
        "eu-central-1" accountInfoExample []).vars "hosted_zone" =
        some (.str s) ∧ s.data.getLast? = some '.') := by
  constructor
  · obtain ⟨out, hout⟩ : ∃ out, PostgresApp.gather_user_variables pgEnvExample
        "eu-central-1" accountInfoExample [] = .ok out := ⟨_, rfl⟩
    obtain ⟨s, h1, h2⟩ := hosted_zone_trailing_dot.1 pgEnvExample "eu-central-1"
      accountInfoExample [] out hout
    exact ⟨out, s, hout, h1, h2⟩
  · exact hosted_zone_trailing_dot.2 webEnvExample "eu-central-1" accountInfoExample []

/-- C9: one multi-region invocation with a configured definition file
`<stem>.yaml` produces exactly the two coupled files `<stem>-base.yaml` —
written eagerly during gathering, holding the rendered base-resources
stack — and `<stem>.yaml`, whose deployment stack text is returned to the
caller. -/
theorem multiregion_two_files (env : WebAppMultiRegion.WebEnv) (region : String)
    (account_info : AccountInfo) (vars : VarMap) (stem : String)
    (hstem : stem ≠ "")
    (hdef : lookupVar vars "definition_file" = some (.str (stem ++ ".yaml"))) :
    (WebAppMultiRegion.gather_user_variables env region account_info vars).files =
      [(stem ++ "-base.yaml",
        pystache_render WebAppMultiRegion.BASE_TEMPLATE
          (WebAppMultiRegion.gather_user_variables env region account_info vars).vars)] ∧
    (WebAppMultiRegion.invocationFiles env region account_info vars).map Prod.fst =
      [stem ++ "-base.yaml", stem ++ ".yaml"] := by
  have hpres := lookupVar_webGather_def_file env region account_info vars
  rw [hdef] at hpres
  have hget : getStr (WebAppMultiRegion.gather_user_variables env region
      account_info vars).vars "definition_file" = stem ++ ".yaml" := by
    rw [getStr, hpres]
  constructor
  · rw [webGather_files, hget, stemOf_append_yaml stem hstem]
  · simp only [WebAppMultiRegion.invocationFiles]
    rw [webGather_files, hget, stemOf_append_yaml stem hstem]
    simp [hget]

/-- Witness for C9 at a concrete configured file name `myapp.yaml`. -/
theorem multiregion_two_files_witness :
    (WebAppMultiRegion.gather_user_variables webEnvExample "eu-central-1"
        accountInfoExample
        [("definition_file", PyVal.str ("myapp" ++ ".yaml"))]).files =
      [("myapp" ++ "-base.yaml",
        pystache_render WebAppMultiRegion.BASE_TEMPLATE
          (WebAppMultiRegion.gather_user_variables webEnvExample "eu-central-1"
            accountInfoExample
            [("definition_file", PyVal.str ("myapp" ++ ".yaml"))]).vars)] ∧
    (WebAppMultiRegion.invocationFiles webEnvExample "eu-central-1"
        accountInfoExample
        [("definition_file", PyVal.str ("myapp" ++ ".yaml"))]).map Prod.fst =
      ["myapp" ++ "-base.yaml", "myapp" ++ ".yaml"] :=
  multiregion_two_files webEnvExample "eu-central-1" accountInfoExample
    [("definition_file", PyVal.str ("myapp" ++ ".yaml"))] "myapp"
    (by decide) (by rfl)

end Senza
